import Mathlib

/-!
Shallow embedding of `src/main.rs` of the `morning-lights-off` repository.

The program is a single linear script: it loads configuration from the
environment, connects to a Postgres database, fetches the device directory
(`fetch_wiz_lights`), fetches today's sunrise time over HTTP
(`fetch_sunrise_time`), sleeps until 30 minutes before sunrise (or proceeds
immediately), and then sends a fixed UDP "off" payload to every device,
writing one audit row to the `log` table per notable event
(`log_light_event`).

Modelling conventions:
* Instants (`DateTime<Utc>` / `DateTime<Local>` values) are integers counting
  nanoseconds; `chrono::TimeDelta` subtraction of two instants is integer
  subtraction, and `TimeDelta::num_seconds` is truncating division by 10^9
  (`Int.tdiv`), exactly chrono's round-toward-zero semantics.
* The environment is a function `String → Option String`; external outcomes
  (database connect, the `machine` query, the HTTP body's `sunrise` string,
  per-device UDP send results, per-insert database results) are explicit
  parameters, since they are inputs of the run, not code of this repository.
* `chrono` datetime rendering (`Display` of `DateTime<Local>` and
  `format("%Y-%m-%d %H:%M:%S")`) and `f64` parsing/re-rendering of `LAT`/`LNG`
  are library code outside this repository; they are abstracted as opaque
  string-valued parameters (`Fmt`, `parseF64`).  No claim depends on their
  output, only on where it is spliced into messages and URLs.
* Side effects are reified as an ordered trace of `Effect` values in the order
  the `await`ed calls occur in `main`.
-/

/-- A row of the `machine` table: the `host_id` and `name` columns selected by
`fetch_wiz_lights`. -/
structure MachineRow where
  host_id : String
  name : String
  deriving DecidableEq, Repr

/-- The `WizLight` struct of `main.rs`.  Note that the source stores the fully
derived socket address in the `host_id` field. -/
structure WizLight where
  host_id : String
  name : String
  deriving DecidableEq, Repr

/-- A row of the `log` table as inserted by `log_light_event`. -/
structure LogEvent where
  severity : String
  message : String
  machine : String
  event_type : String
  deriving DecidableEq, Repr

/-- Observable side effects of a run, in program order. -/
inductive Effect where
  | dbConnect : Effect
  | dbQueryMachine : Effect
  | httpGet (url : String) : Effect
  | logInsert (e : LogEvent) : Effect
  | sleepSecs (n : Nat) : Effect
  | udpSend (addr : String) (payload : String) : Effect
  deriving DecidableEq, Repr

/-- Process exit: code 0 (`Ok(())` from `main`) or nonzero (an `Err`
propagated to the process boundary, or a panic from `expect`). -/
inductive ExitKind where
  | success : ExitKind
  | failure (msg : String) : ExitKind
  deriving DecidableEq, Repr

/-- Abstraction of chrono's datetime rendering: `displayLocal` is `{}` of a
`DateTime<Local>` instant, `fmtYmdHms` is `.format("%Y-%m-%d %H:%M:%S")`. -/
structure Fmt where
  displayLocal : Int → String
  fmtYmdHms : Int → String

/-- A trivial rendering, used to instantiate theorems at concrete inputs. -/
def fmt0 : Fmt where
  displayLocal := fun _ => ""
  fmtYmdHms := fun _ => ""

/-- Nanoseconds per second. -/
def nanosPerSec : Int := 1000000000

/-- Model of `chrono::Duration::minutes(m)` as nanoseconds. -/
def minutesNs (m : Int) : Int := m * 60 * nanosPerSec

/-- Model of `chrono::TimeDelta::num_seconds` on a delta of `t` nanoseconds:
whole seconds, rounded toward zero. -/
def num_seconds (t : Int) : Int := Int.tdiv t nanosPerSec

/-- The signed delta `target_time - Local::now()` of `main`, where
`target_time = sunrise_local - chrono::Duration::minutes(30)`.  Timezone
conversion (`with_timezone(&Local)`) does not move the instant, so the delta
is plain instant arithmetic. -/
def duration_to_sleep (sunrise now : Int) : Int := (sunrise - minutesNs 30) - now

/-- Model of Rust's `as u64` cast on an `i64` second count (two's-complement
bit cast, i.e. reduction modulo 2^64). -/
def u64_cast (x : Int) : Nat := (x % 18446744073709551616).toNat

/-- The fixed UDP payload `payload_off` of `main`. -/
def off_payload : String := "\x7b\"method\":\"setPilot\",\"params\":\x7b\"state\":false\x7d\x7d"

/-- The log row written on a successful send (the `Ok(_)` arm of the device
loop in `main`). -/
def device_success_event (l : WizLight) : LogEvent :=
  { severity := "Info"
    message := "Light " ++ l.name ++ " at " ++ l.host_id ++ " turned off!"
    machine := l.name
    event_type := "Morning" }

/-- The log row written on a failed send (the `Err(e)` arm of the device loop
in `main`); `e` is the rendered error. -/
def device_failure_event (l : WizLight) (e : String) : LogEvent :=
  { severity := "Error"
    message := "Failed to turn off light " ++ l.name ++ " at " ++ l.host_id ++ ": " ++ e
    machine := l.name
    event_type := "Morning" }

/-- The device loop of `main`.  `sendErr l = none` means `send_udp_packet` on
`l` succeeded (the datagram was accepted for transmission, recorded as a
`udpSend` effect); `some e` means it failed with rendered error `e` (no
datagram).  `dbErr k` is the outcome of the `k`-th `log` insert of the run
(`none` = row written).  Each device performs its send attempt and then
exactly one insert; a failed insert propagates through `?`, aborting the run
with the remaining devices unprocessed. -/
def controller_loop (sendErr : WizLight → Option String) (dbErr : Nat → Option String) :
    List WizLight → Nat → List Effect × Option String
  | [], _ => ([], none)
  | l :: rest, k =>
    match sendErr l with
    | none =>
      match dbErr k with
      | none =>
        let r := controller_loop sendErr dbErr rest (k + 1)
        (Effect.udpSend l.host_id off_payload :: Effect.logInsert (device_success_event l) :: r.1,
          r.2)
      | some m => ([Effect.udpSend l.host_id off_payload], some m)
    | some e =>
      match dbErr k with
      | none =>
        let r := controller_loop sendErr dbErr rest (k + 1)
        (Effect.logInsert (device_failure_event l e) :: r.1, r.2)
      | some m => ([], some m)

/-- The single "All" log row written by the scheduling stage of `main`:
the sleep announcement when the whole-second wait is positive, otherwise the
"already close enough" message. -/
def sched_event (fmt : Fmt) (sunrise now : Int) : LogEvent :=
  if 0 < num_seconds (duration_to_sleep sunrise now) then
    { severity := "Info"
      message := "Sunrise local is " ++ fmt.displayLocal sunrise ++ ". Sleeping for " ++
        toString (num_seconds (duration_to_sleep sunrise now)) ++ " seconds until " ++
        fmt.displayLocal (sunrise - minutesNs 30) ++ " before turning off morning lights."
      machine := "All"
      event_type := "Morning" }
  else
    { severity := "Info"
      message := "It is already close enough to sunrise. Sunrise local today is " ++
        fmt.fmtYmdHms sunrise ++ ". Turning lights off immediately."
      machine := "All"
      event_type := "Morning" }

/-- The tail of `main` after both fetches succeeded: the scheduling branch
(one insert, then `sleep` only when `num_seconds > 0`), followed by the device
loop.  Returns the effect trace and `some msg` when a failed insert aborted
the run through `?`. -/
def run_after_fetch (fmt : Fmt) (sunrise now : Int) (lights : List WizLight)
    (sendErr : WizLight → Option String) (dbErr : Nat → Option String) :
    List Effect × Option String :=
  match dbErr 0 with
  | some m => ([], some m)
  | none =>
    let r := controller_loop sendErr dbErr lights 1
    if 0 < num_seconds (duration_to_sleep sunrise now) then
      (Effect.logInsert (sched_event fmt sunrise now) ::
        Effect.sleepSecs (u64_cast (num_seconds (duration_to_sleep sunrise now))) :: r.1, r.2)
    else
      (Effect.logInsert (sched_event fmt sunrise now) :: r.1, r.2)

/-- The four `env::var(..).expect(..)` reads at the top of `main` and the
connection-string format; an absent variable panics with the corresponding
message before any connection is attempted. -/
def config_load (env : String → Option String) : Except String String :=
  match env "DB_HOST" with
  | none => Except.error "DB_HOST not set"
  | some db_host =>
    match env "DB_USER" with
    | none => Except.error "DB_USER not set"
    | some db_user =>
      match env "DB_PASSWORD" with
      | none => Except.error "DB_PASSWORD not set"
      | some db_password =>
        match env "DB_NAME" with
        | none => Except.error "DB_NAME not set"
        | some db_name =>
          Except.ok ("host=" ++ db_host ++ " user=" ++ db_user ++ " password=" ++ db_password ++
            " dbname=" ++ db_name)

/-- Model of `fetch_wiz_lights`: runs the `machine` query first, then reads
`NETWORK_ID` (so the query precedes the `NETWORK_ID not set` panic), and
derives each device's address as `format!("{}.{}:38899", network_id, host_id)`.
`machineRows` is the query outcome. -/
def fetch_wiz_lights (env : String → Option String)
    (machineRows : Except String (List MachineRow)) :
    List Effect × Except String (List WizLight) :=
  ([Effect.dbQueryMachine],
    match machineRows with
    | Except.error m => Except.error m
    | Except.ok rows =>
      match env "NETWORK_ID" with
      | none => Except.error "NETWORK_ID not set"
      | some network_id =>
        Except.ok (rows.map (fun row =>
          { host_id := network_id ++ "." ++ row.host_id ++ ":38899"
            name := row.name })))

/-- Model of `fetch_sunrise_time`: reads and parses `LAT` and `LNG` (each
`expect` panics with its message), builds the request URL, performs the GET
(recorded as an `httpGet` effect), and parses the `sunrise` string of the
decoded body into a UTC instant.  `parseF64 s` is `s.parse::<f64>()` composed
with `{}` re-rendering (`none` = parse failure); `parseDt` is
`str::parse::<DateTime<Utc>>`; `httpBody` is the `sunrise` field of the
decoded JSON response, or a request/decode failure.  Error strings are the
`expect` messages and the `thiserror` display strings of `SunriseError`. -/
def fetch_sunrise_time (env : String → Option String) (parseF64 : String → Option String)
    (parseDt : String → Except String Int) (httpBody : Except String String) :
    List Effect × Except String Int :=
  match env "LAT" with
  | none => ([], Except.error "LAT not set")
  | some latRaw =>
    match parseF64 latRaw with
    | none => ([], Except.error "Invalid latitude value")
    | some lat =>
      match env "LNG" with
      | none => ([], Except.error "LNG not set")
      | some lngRaw =>
        match parseF64 lngRaw with
        | none => ([], Except.error "Invalid longitude value")
        | some lng =>
          ([Effect.httpGet ("https://api.sunrise-sunset.org/json?lat=" ++ lat ++ "&lng=" ++
              lng ++ "&formatted=0")],
            match httpBody with
            | Except.error _ => Except.error "HTTP request error"
            | Except.ok s =>
              match parseDt s with
              | Except.error _ => Except.error "DateTime parse error"
              | Except.ok t => Except.ok t)

/-- The whole of `main`, in source order: config loading, database connect
(`connectOk` is its outcome), `fetch_wiz_lights`, `fetch_sunrise_time`, then
the scheduling branch and the device loop.  Returns the ordered effect trace
and the process exit. -/
def run_program (env : String → Option String) (fmt : Fmt)
    (parseF64 : String → Option String) (parseDt : String → Except String Int)
    (connectOk : Bool) (machineRows : Except String (List MachineRow))
    (httpBody : Except String String) (now : Int)
    (sendErr : WizLight → Option String) (dbErr : Nat → Option String) :
    List Effect × ExitKind :=
  match config_load env with
  | Except.error m => ([], ExitKind.failure m)
  | Except.ok _ =>
    if connectOk then
      let f := fetch_wiz_lights env machineRows
      match f.2 with
      | Except.error m => (Effect.dbConnect :: f.1, ExitKind.failure m)
      | Except.ok lights =>
        let s := fetch_sunrise_time env parseF64 parseDt httpBody
        match s.2 with
        | Except.error m => (Effect.dbConnect :: f.1 ++ s.1, ExitKind.failure m)
        | Except.ok sunrise =>
          let r := run_after_fetch fmt sunrise now lights sendErr dbErr
          (Effect.dbConnect :: f.1 ++ s.1 ++ r.1,
            match r.2 with
            | none => ExitKind.success
            | some m => ExitKind.failure m)
    else ([Effect.dbConnect], ExitKind.failure "connection error")

/-- The log rows among a trace, in order. -/
def logInserts (tr : List Effect) : List LogEvent :=
  tr.filterMap (fun e =>
    match e with
    | Effect.logInsert ev => some ev
    | _ => none)

/-- The number of datagrams accepted for transmission in a trace. -/
def udpCount (tr : List Effect) : Nat :=
  (tr.filter (fun e =>
    match e with
    | Effect.udpSend _ _ => true
    | _ => false)).length

/-- A fully populated environment, used to instantiate theorems at concrete
inputs. -/
def envFull : String → Option String := fun k =>
  if k = "DB_HOST" then some "localhost"
  else if k = "DB_USER" then some "user"
  else if k = "DB_PASSWORD" then some "pw"
  else if k = "DB_NAME" then some "homedb"
  else if k = "NETWORK_ID" then some "192.168.1"
  else if k = "LAT" then some "51.5"
  else if k = "LNG" then some "-0.1"
  else none

/-! ### Trace-counting helper lemmas -/

@[simp] lemma logInserts_nil : logInserts [] = [] := rfl

@[simp] lemma logInserts_cons_logInsert (e : LogEvent) (tr : List Effect) :
    logInserts (Effect.logInsert e :: tr) = e :: logInserts tr := rfl

@[simp] lemma logInserts_cons_sleepSecs (n : Nat) (tr : List Effect) :
    logInserts (Effect.sleepSecs n :: tr) = logInserts tr := rfl

@[simp] lemma logInserts_cons_udpSend (a p : String) (tr : List Effect) :
    logInserts (Effect.udpSend a p :: tr) = logInserts tr := rfl

@[simp] lemma udpCount_nil : udpCount [] = 0 := rfl

@[simp] lemma udpCount_cons_logInsert (e : LogEvent) (tr : List Effect) :
    udpCount (Effect.logInsert e :: tr) = udpCount tr := rfl

@[simp] lemma udpCount_cons_sleepSecs (n : Nat) (tr : List Effect) :
    udpCount (Effect.sleepSecs n :: tr) = udpCount tr := rfl

@[simp] lemma udpCount_cons_udpSend (a p : String) (tr : List Effect) :
    udpCount (Effect.udpSend a p :: tr) = udpCount tr + 1 := by
  simp [udpCount, List.filter, Nat.add_comm]

/-! ### Device-loop helper lemmas -/

lemma controller_loop_no_sleep (sendErr : WizLight → Option String)
    (dbErr : Nat → Option String) (lights : List WizLight) :
    ∀ (k n : Nat), Effect.sleepSecs n ∉ (controller_loop sendErr dbErr lights k).1 := by
  induction lights with
  | nil => intro k n; simp [controller_loop]
  | cons l rest ih =>
    intro k n
    cases hse : sendErr l <;> cases hdb : dbErr k <;>
      simp [controller_loop, hse, hdb] <;> exact ih (k + 1) n

lemma controller_loop_ok_snd (sendErr : WizLight → Option String) (lights : List WizLight) :
    ∀ k, (controller_loop sendErr (fun _ => none) lights k).2 = none := by
  induction lights with
  | nil => intro k; simp [controller_loop]
  | cons l rest ih =>
    intro k
    cases hse : sendErr l <;> simp [controller_loop, hse] <;> exact ih (k + 1)

lemma controller_loop_ok_logInserts (sendErr : WizLight → Option String)
    (lights : List WizLight) :
    ∀ k, logInserts (controller_loop sendErr (fun _ => none) lights k).1 =
      lights.map (fun l =>
        match sendErr l with
        | none => device_success_event l
        | some e => device_failure_event l e) := by
  induction lights with
  | nil => intro k; simp [controller_loop]
  | cons l rest ih =>
    intro k
    cases hse : sendErr l <;> simp [controller_loop, hse] <;> exact ih (k + 1)

lemma controller_loop_logInsert_shape (sendErr : WizLight → Option String)
    (dbErr : Nat → Option String) (lights : List WizLight) :
    ∀ (k : Nat) (e : LogEvent),
      Effect.logInsert e ∈ (controller_loop sendErr dbErr lights k).1 →
      ∃ l, l ∈ lights ∧
        (e = device_success_event l ∨ ∃ err, e = device_failure_event l err) := by
  induction lights with
  | nil => intro k e he; simp [controller_loop] at he
  | cons l rest ih =>
    intro k e he
    cases hse : sendErr l <;> cases hdb : dbErr k <;>
      simp [controller_loop, hse, hdb] at he
    · rcases he with he | he
      · exact ⟨l, by simp, Or.inl he⟩
      · obtain ⟨l2, hl2, hshape⟩ := ih (k + 1) e he
        exact ⟨l2, by simp [hl2], hshape⟩
    · rcases he with he | he
      · exact ⟨l, by simp, Or.inr ⟨_, he⟩⟩
      · obtain ⟨l2, hl2, hshape⟩ := ih (k + 1) e he
        exact ⟨l2, by simp [hl2], hshape⟩

/-! ### Claim C3 -/

/-- Claim C3: for every device row with identifier `H` and configured network
prefix `P`, `fetch_wiz_lights` derives exactly the address `P ++ "." ++ H ++
":38899"`, keeping the display name; the derivation is the same function of
`P` and `H` for every row (it does not depend on the name or on other rows). -/
theorem derived_address_format (env : String → Option String) (P : String)
    (rows : List MachineRow) (hP : env "NETWORK_ID" = some P) :
    (fetch_wiz_lights env (Except.ok rows)).2 =
      Except.ok (rows.map (fun row =>
        ({ host_id := P ++ "." ++ row.host_id ++ ":38899", name := row.name } : WizLight))) ∧
    ∀ row, row ∈ rows → ∀ other, other ∈ rows → row.host_id = other.host_id →
      P ++ "." ++ row.host_id ++ ":38899" = P ++ "." ++ other.host_id ++ ":38899" := by
  constructor
  · simp [fetch_wiz_lights, hP]
  · intro row _ other _ hid
    rw [hid]

/-- Instantiation of `derived_address_format` on the spec's two-device
scenario: prefix `192.168.1`, identifiers `10` and `20`. -/
theorem derived_address_format_witness :
    (fetch_wiz_lights envFull
        (Except.ok [⟨"10", "Bedroom"⟩, ⟨"20", "Kitchen"⟩])).2 =
      Except.ok (([⟨"10", "Bedroom"⟩, ⟨"20", "Kitchen"⟩] : List MachineRow).map (fun row =>
        ({ host_id := "192.168.1" ++ "." ++ row.host_id ++ ":38899",
           name := row.name } : WizLight))) :=
  (derived_address_format envFull "192.168.1" [⟨"10", "Bedroom"⟩, ⟨"20", "Kitchen"⟩]
    (by decide)).1

/-! ### Claim C5 -/

/-- Claim C5: for a device directory of `N` rows with every insert succeeding,
the device loop writes exactly `N` log rows, the `i`-th row being the success
(`Info`) event of the `i`-th device when its send succeeded and its failure
(`Error`) event otherwise — one row per device, never both, never neither. -/
theorem controller_one_log_per_device (lights : List WizLight)
    (sendErr : WizLight → Option String) (k : Nat) :
    logInserts (controller_loop sendErr (fun _ => none) lights k).1 =
      lights.map (fun l =>
        match sendErr l with
        | none => device_success_event l
        | some e => device_failure_event l e) ∧
    (logInserts (controller_loop sendErr (fun _ => none) lights k).1).length = lights.length ∧
    ∀ ev, ev ∈ logInserts (controller_loop sendErr (fun _ => none) lights k).1 →
      ev.severity = "Info" ∨ ev.severity = "Error" := by
  have h1 := controller_loop_ok_logInserts sendErr lights k
  refine ⟨h1, by rw [h1]; simp, ?_⟩
  intro ev hev
  rw [h1] at hev
  obtain ⟨l, _, hl⟩ := List.mem_map.mp hev
  cases hse : sendErr l <;> rw [hse] at hl <;> rw [← hl]
  · exact Or.inl rfl
  · exact Or.inr rfl

/-- Instantiation of `controller_one_log_per_device` on the spec's two-device
scenario, with the first send succeeding and the second failing: two log rows,
tagged `Bedroom` (Info) and `Kitchen` (Error). -/
theorem controller_one_log_per_device_witness :
    (logInserts (controller_loop
        (fun l => if l.name = "Kitchen" then some "no route" else none) (fun _ => none)
        [⟨"192.168.1.10:38899", "Bedroom"⟩, ⟨"192.168.1.20:38899", "Kitchen"⟩] 1).1).length = 2 ∧
    ((device_failure_event ⟨"192.168.1.20:38899", "Kitchen"⟩ "no route").severity = "Info" ∨
      (device_failure_event ⟨"192.168.1.20:38899", "Kitchen"⟩ "no route").severity = "Error") :=
  ⟨(controller_one_log_per_device
      [⟨"192.168.1.10:38899", "Bedroom"⟩, ⟨"192.168.1.20:38899", "Kitchen"⟩]
      (fun l => if l.name = "Kitchen" then some "no route" else none) 1).2.1,
   (controller_one_log_per_device
      [⟨"192.168.1.10:38899", "Bedroom"⟩, ⟨"192.168.1.20:38899", "Kitchen"⟩]
      (fun l => if l.name = "Kitchen" then some "no route" else none) 1).2.2
      (device_failure_event ⟨"192.168.1.20:38899", "Kitchen"⟩ "no route") (by decide)⟩

/-! ### Claim C2 -/

/-- Claim C2, corrected: per-device *send* failures alone never make the run
fail — when every insert succeeds the loop reaches the end with `Ok` whatever
the send outcomes, each failed device merely contributing its `Error` log row
while the loop continues.  (A failed *insert*, by contrast, aborts the run:
see `log_insert_failure_aborts_run_concrete`.) -/
theorem send_failure_continues_loop (fmt : Fmt) (sunrise now : Int)
    (lights : List WizLight) (sendErr : WizLight → Option String) :
    (run_after_fetch fmt sunrise now lights sendErr (fun _ => none)).2 = none ∧
    logInserts (controller_loop sendErr (fun _ => none) lights 1).1 =
      lights.map (fun l =>
        match sendErr l with
        | none => device_success_event l
        | some e => device_failure_event l e) := by
  constructor
  · by_cases hd : 0 < num_seconds (duration_to_sleep sunrise now) <;>
      simp [run_after_fetch, hd, controller_loop_ok_snd]
  · exact controller_loop_ok_logInserts sendErr lights 1

/-- Counterexample to claim C2 as stated: a run in which the only database
failure is the insert recording device `Bedroom`'s failed send attempt ends
with a nonzero exit, and device `Kitchen` is never processed (one single log
row was written — the scheduling row — and no datagram was ever sent). -/
theorem log_insert_failure_aborts_run_concrete :
    (run_program envFull fmt0 (fun s => some s) (fun _ => Except.ok 0) true
        (Except.ok [⟨"10", "Bedroom"⟩, ⟨"20", "Kitchen"⟩]) (Except.ok "t") 1800000000000
        (fun _ => some "network unreachable")
        (fun k => if k = 1 then some "db connection lost" else none)).2 =
      ExitKind.failure "db connection lost" ∧
    (logInserts (run_program envFull fmt0 (fun s => some s) (fun _ => Except.ok 0) true
        (Except.ok [⟨"10", "Bedroom"⟩, ⟨"20", "Kitchen"⟩]) (Except.ok "t") 1800000000000
        (fun _ => some "network unreachable")
        (fun k => if k = 1 then some "db connection lost" else none)).1).length = 1 ∧
    udpCount (run_program envFull fmt0 (fun s => some s) (fun _ => Except.ok 0) true
        (Except.ok [⟨"10", "Bedroom"⟩, ⟨"20", "Kitchen"⟩]) (Except.ok "t") 1800000000000
        (fun _ => some "network unreachable")
        (fun k => if k = 1 then some "db connection lost" else none)).1 = 0 := by
  refine ⟨by decide, by decide, by decide⟩

/-! ### Arithmetic helper lemmas for the scheduler -/

lemma num_seconds_pos {t : Int} (h : nanosPerSec ≤ t) : 0 < num_seconds t := by
  have h0 : (0 : Int) ≤ t := le_trans (by norm_num [nanosPerSec]) h
  rw [num_seconds, Int.tdiv_eq_ediv h0 (by norm_num [nanosPerSec])]
  have h1 : (1 : Int) ≤ t / nanosPerSec := by
    rw [Int.le_ediv_iff_mul_le (by norm_num [nanosPerSec] : (0 : Int) < nanosPerSec)]
    simpa using h
  omega

lemma num_seconds_lt_two_pow {t : Int} (h0 : 0 ≤ t)
    (hb : t < 9223372036854775808 * nanosPerSec) :
    num_seconds t < 18446744073709551616 := by
  rw [num_seconds, Int.tdiv_eq_ediv h0 (by norm_num [nanosPerSec])]
  have h1 : t / nanosPerSec < 9223372036854775808 := by
    rw [Int.ediv_lt_iff_lt_mul (by norm_num [nanosPerSec] : (0 : Int) < nanosPerSec)]
    exact hb
  omega

lemma u64_cast_of_small {d : Int} (h0 : 0 ≤ d) (h1 : d < 18446744073709551616) :
    (u64_cast d : Int) = d := by
  rw [u64_cast, Int.emod_eq_of_lt h0 h1]
  exact Int.toNat_of_nonneg h0

/-! ### Claim C4 -/

/-- Claim C4: a `sleepSecs` effect occurs only when the whole-second count of
the computed signed duration is strictly positive, and then its argument is
exactly the `as u64` cast of that (positive) count; a non-positive count
short-circuits to immediate action with no sleep at all.  The cast is
therefore always performed on a positive value. -/
theorem sleep_cast_always_positive (fmt : Fmt) (sunrise now : Int) (lights : List WizLight)
    (sendErr : WizLight → Option String) (dbErr : Nat → Option String) :
    (∀ n : Nat, Effect.sleepSecs n ∈ (run_after_fetch fmt sunrise now lights sendErr dbErr).1 →
      0 < num_seconds (duration_to_sleep sunrise now) ∧
      n = u64_cast (num_seconds (duration_to_sleep sunrise now))) ∧
    (num_seconds (duration_to_sleep sunrise now) ≤ 0 →
      ∀ n : Nat, Effect.sleepSecs n ∉ (run_after_fetch fmt sunrise now lights sendErr dbErr).1) := by
  cases hdb : dbErr 0 with
  | some m => simp [run_after_fetch, hdb]
  | none =>
    by_cases hd : 0 < num_seconds (duration_to_sleep sunrise now)
    · constructor
      · intro n hn
        simp [run_after_fetch, hdb, hd] at hn
        rcases hn with hn | hn
        · exact ⟨hd, hn⟩
        · exact absurd hn (controller_loop_no_sleep sendErr dbErr lights 1 n)
      · intro hle
        omega
    · constructor
      · intro n hn
        simp [run_after_fetch, hdb, hd] at hn
        exact absurd hn (controller_loop_no_sleep sendErr dbErr lights 1 n)
      · intro _ n hn
        simp [run_after_fetch, hdb, hd] at hn
        exact absurd hn (controller_loop_no_sleep sendErr dbErr lights 1 n)

/-- Instantiation of `sleep_cast_always_positive`: at a sunrise 90 minutes
ahead the sleep effect carries the cast of the positive count 3600, and at a
sunrise already passed no sleep effect occurs. -/
theorem sleep_cast_always_positive_witness :
    (0 < num_seconds (duration_to_sleep 1717219800000000000 1717214400000000000) ∧
      3600 = u64_cast (num_seconds (duration_to_sleep 1717219800000000000 1717214400000000000))) ∧
    Effect.sleepSecs 5 ∉ (run_after_fetch fmt0 0 0 [] (fun _ => none) (fun _ => none)).1 :=
  ⟨(sleep_cast_always_positive fmt0 1717219800000000000 1717214400000000000 []
      (fun _ => none) (fun _ => none)).1 3600 (by decide),
   (sleep_cast_always_positive fmt0 0 0 [] (fun _ => none) (fun _ => none)).2 (by decide) 5⟩

/-! ### Claim C1 -/

/-- Counterexample to claim C1 as stated: with `now = 0` and sunrise
1800.5 seconds away — strictly more than 30 minutes in the future — the
whole-second wait truncates to 0, the code takes the immediate branch (no
`sleepSecs` effect in the trace), and the single informational row is the
"already close enough" message, not the sleep announcement. -/
theorem sub_second_wait_not_slept :
    minutesNs 30 < 1800500000000 - 0 ∧
    num_seconds (duration_to_sleep 1800500000000 0) = 0 ∧
    run_after_fetch fmt0 1800500000000 0 [] (fun _ => none) (fun _ => none) =
      ([Effect.logInsert (sched_event fmt0 1800500000000 0)], none) ∧
    (sched_event fmt0 1800500000000 0).message =
      "It is already close enough to sunrise. Sunrise local today is . Turning lights off immediately." :=
  ⟨by decide, by decide, by decide, by decide⟩

/-- Claim C1, corrected: for every sunrise instant at least 30 minutes *and
one full second* after the current time (equivalently, whenever the signed
duration truncates to a positive whole-second count), the scheduler computes
the strictly positive wait `(sunrise − 30min − now)` truncated to the second,
writes exactly one informational event first, and then suspends for exactly
that many whole seconds (the `as u64` cast is lossless here), before any
per-device processing.  The bound hypothesis reflects that a chrono
`TimeDelta` second count is an `i64`. -/
theorem positive_whole_second_wait_sleeps (fmt : Fmt) (sunrise now : Int)
    (lights : List WizLight) (sendErr : WizLight → Option String) (dbErr : Nat → Option String)
    (h : nanosPerSec ≤ duration_to_sleep sunrise now) (hdb : dbErr 0 = none)
    (hbound : duration_to_sleep sunrise now < 9223372036854775808 * nanosPerSec) :
    0 < num_seconds (duration_to_sleep sunrise now) ∧
    num_seconds (duration_to_sleep sunrise now) =
      Int.tdiv ((sunrise - minutesNs 30) - now) nanosPerSec ∧
    (u64_cast (num_seconds (duration_to_sleep sunrise now)) : Int) =
      num_seconds (duration_to_sleep sunrise now) ∧
    (run_after_fetch fmt sunrise now lights sendErr dbErr).1 =
      Effect.logInsert (sched_event fmt sunrise now) ::
        Effect.sleepSecs (u64_cast (num_seconds (duration_to_sleep sunrise now))) ::
        (controller_loop sendErr dbErr lights 1).1 ∧
    (sched_event fmt sunrise now).severity = "Info" ∧
    (sched_event fmt sunrise now).machine = "All" := by
  have hpos := num_seconds_pos h
  have h0 : (0 : Int) ≤ duration_to_sleep sunrise now :=
    le_trans (by norm_num [nanosPerSec]) h
  refine ⟨hpos, rfl, ?_, ?_, ?_, ?_⟩
  · exact u64_cast_of_small (le_of_lt hpos) (num_seconds_lt_two_pow h0 hbound)
  · simp [run_after_fetch, hdb, hpos]
  · unfold sched_event; split <;> rfl
  · unfold sched_event; split <;> rfl

/-- Instantiation of `positive_whole_second_wait_sleeps` at the spec's
reference scenario (sunrise 90 minutes ahead of now, one device). -/
theorem positive_whole_second_wait_sleeps_witness :
    0 < num_seconds (duration_to_sleep 1717219800000000000 1717214400000000000) ∧
    num_seconds (duration_to_sleep 1717219800000000000 1717214400000000000) =
      Int.tdiv ((1717219800000000000 - minutesNs 30) - 1717214400000000000) nanosPerSec ∧
    (u64_cast (num_seconds (duration_to_sleep 1717219800000000000 1717214400000000000)) : Int) =
      num_seconds (duration_to_sleep 1717219800000000000 1717214400000000000) ∧
    (run_after_fetch fmt0 1717219800000000000 1717214400000000000
        [⟨"192.168.1.10:38899", "Bedroom"⟩] (fun _ => none) (fun _ => none)).1 =
      Effect.logInsert (sched_event fmt0 1717219800000000000 1717214400000000000) ::
        Effect.sleepSecs (u64_cast (num_seconds
          (duration_to_sleep 1717219800000000000 1717214400000000000))) ::
        (controller_loop (fun _ => none) (fun _ => none)
          [⟨"192.168.1.10:38899", "Bedroom"⟩] 1).1 ∧
    (sched_event fmt0 1717219800000000000 1717214400000000000).severity = "Info" ∧
    (sched_event fmt0 1717219800000000000 1717214400000000000).machine = "All" :=
  positive_whole_second_wait_sleeps fmt0 1717219800000000000 1717214400000000000
    [⟨"192.168.1.10:38899", "Bedroom"⟩] (fun _ => none) (fun _ => none)
    (by decide) rfl (by decide)

/-! ### Claim C9 -/

/-- Claim C9: whenever a positive whole-second wait is computed (and the
scheduling insert succeeds), the trace is exactly one `Info`/`All` log row,
then the sleep, then the device loop's effects — in that order; and in the
reference scenario (sunrise `2024-06-01T05:30:00Z`, offset 0, now
`2024-06-01T04:00:00Z`, given here as epoch nanoseconds) the wait is exactly
3600 seconds. -/
theorem scheduler_effect_order (fmt : Fmt) (sunrise now : Int) (lights : List WizLight)
    (sendErr : WizLight → Option String) (dbErr : Nat → Option String)
    (h : 0 < num_seconds (duration_to_sleep sunrise now)) (hdb : dbErr 0 = none) :
    (run_after_fetch fmt sunrise now lights sendErr dbErr).1 =
      Effect.logInsert (sched_event fmt sunrise now) ::
        Effect.sleepSecs (u64_cast (num_seconds (duration_to_sleep sunrise now))) ::
        (controller_loop sendErr dbErr lights 1).1 ∧
    (sched_event fmt sunrise now).severity = "Info" ∧
    (sched_event fmt sunrise now).machine = "All" ∧
    num_seconds (duration_to_sleep 1717219800000000000 1717214400000000000) = 3600 ∧
    u64_cast (num_seconds (duration_to_sleep 1717219800000000000 1717214400000000000)) = 3600 := by
  refine ⟨by simp [run_after_fetch, hdb, h], ?_, ?_, by decide, by decide⟩
  · unfold sched_event; split <;> rfl
  · unfold sched_event; split <;> rfl

/-- Instantiation of `scheduler_effect_order` at the reference scenario
itself. -/
theorem scheduler_effect_order_witness :
    (run_after_fetch fmt0 1717219800000000000 1717214400000000000
        [⟨"192.168.1.10:38899", "Bedroom"⟩] (fun _ => none) (fun _ => none)).1 =
      Effect.logInsert (sched_event fmt0 1717219800000000000 1717214400000000000) ::
        Effect.sleepSecs (u64_cast (num_seconds
          (duration_to_sleep 1717219800000000000 1717214400000000000))) ::
        (controller_loop (fun _ => none) (fun _ => none)
          [⟨"192.168.1.10:38899", "Bedroom"⟩] 1).1 ∧
    (sched_event fmt0 1717219800000000000 1717214400000000000).severity = "Info" ∧
    (sched_event fmt0 1717219800000000000 1717214400000000000).machine = "All" ∧
    num_seconds (duration_to_sleep 1717219800000000000 1717214400000000000) = 3600 ∧
    u64_cast (num_seconds (duration_to_sleep 1717219800000000000 1717214400000000000)) = 3600 :=
  scheduler_effect_order fmt0 1717219800000000000 1717214400000000000
    [⟨"192.168.1.10:38899", "Bedroom"⟩] (fun _ => none) (fun _ => none) (by decide) rfl

/-! ### Claim C10 -/

lemma controller_abort_at (sendErr : WizLight → Option String) (dbErr : Nat → Option String)
    (m : String) :
    ∀ (lights : List WizLight) (k i : Nat), i < lights.length →
      (∀ j, j < i → dbErr (k + j) = none) → dbErr (k + i) = some m →
      (controller_loop sendErr dbErr lights k).2 = some m ∧
      udpCount (controller_loop sendErr dbErr lights k).1 =
        ((lights.take (i + 1)).filter (fun l => (sendErr l).isNone)).length := by
  intro lights
  induction lights with
  | nil => intro k i hi _ _; simp at hi
  | cons l rest ih =>
    intro k i hi hpre hfail
    cases i with
    | zero =>
      have hk : dbErr k = some m := by simpa using hfail
      cases hse : sendErr l <;>
        simp [controller_loop, hse, hk, List.filter]
    | succ i2 =>
      have hk : dbErr k = none := by
        have := hpre 0 (Nat.succ_pos i2)
        simpa using this
      have hfail2 : dbErr (k + 1 + i2) = some m := by
        have harith : k + 1 + i2 = k + (i2 + 1) := by omega
        rw [harith]; exact hfail
      have hpre2 : ∀ j, j < i2 → dbErr (k + 1 + j) = none := by
        intro j hj
        have harith : k + 1 + j = k + (j + 1) := by omega
        rw [harith]; exact hpre (j + 1) (by omega)
      have hi2 : i2 < rest.length := by simpa using hi
      obtain ⟨h1, h2⟩ := ih (k + 1) i2 hi2 hpre2 hfail2
      cases hse : sendErr l <;>
        simp [controller_loop, hse, hk, h1, h2, List.filter]

/-- Claim C10: a failed `log` insert aborts the run at the point it occurs —
if the run-wide scheduling insert fails nothing at all happens (empty trace),
and if the insert for device `i` (0-based; its insert index is `i + 1`) fails
after all earlier inserts succeeded, the run ends with that error and the
datagrams actually sent are exactly the successful sends among devices
`0 .. i`: devices after `i` are never sent the off command. -/
theorem mid_loop_insert_failure_partial_fanout (fmt : Fmt) (sunrise now : Int)
    (lights : List WizLight) (sendErr : WizLight → Option String)
    (dbErr : Nat → Option String) (m : String) :
    (dbErr 0 = some m →
      run_after_fetch fmt sunrise now lights sendErr dbErr = ([], some m)) ∧
    (∀ i, i < lights.length → (∀ j, j ≤ i → dbErr j = none) → dbErr (i + 1) = some m →
      (run_after_fetch fmt sunrise now lights sendErr dbErr).2 = some m ∧
      udpCount (run_after_fetch fmt sunrise now lights sendErr dbErr).1 =
        ((lights.take (i + 1)).filter (fun l => (sendErr l).isNone)).length) := by
  constructor
  · intro hdb
    simp [run_after_fetch, hdb]
  · intro i hi hpre hfail
    have hdb0 : dbErr 0 = none := hpre 0 (Nat.zero_le i)
    have hpre1 : ∀ j, j < i → dbErr (1 + j) = none := by
      intro j hj
      have harith : 1 + j = j + 1 := by omega
      rw [harith]; exact hpre (j + 1) (by omega)
    have hfail1 : dbErr (1 + i) = some m := by
      have harith : 1 + i = i + 1 := by omega
      rw [harith]; exact hfail
    obtain ⟨h1, h2⟩ := controller_abort_at sendErr dbErr m lights 1 i hi hpre1 hfail1
    by_cases hd : 0 < num_seconds (duration_to_sleep sunrise now) <;>
      simp [run_after_fetch, hdb0, hd, h1, h2]

/-- Instantiation of `mid_loop_insert_failure_partial_fanout`: two devices,
both sends succeed, the insert for the first device fails — the run aborts
with that error and exactly one datagram was sent. -/
theorem mid_loop_insert_failure_partial_fanout_witness :
    (run_after_fetch fmt0 0 0
        [⟨"192.168.1.10:38899", "Bedroom"⟩, ⟨"192.168.1.20:38899", "Kitchen"⟩]
        (fun _ => none) (fun k => if k = 1 then some "db down" else none)).2 = some "db down" ∧
    udpCount (run_after_fetch fmt0 0 0
        [⟨"192.168.1.10:38899", "Bedroom"⟩, ⟨"192.168.1.20:38899", "Kitchen"⟩]
        (fun _ => none) (fun k => if k = 1 then some "db down" else none)).1 =
      ((([⟨"192.168.1.10:38899", "Bedroom"⟩, ⟨"192.168.1.20:38899", "Kitchen"⟩] :
          List WizLight).take 1).filter
        (fun l => ((fun _ => none : WizLight → Option String) l).isNone)).length :=
  (mid_loop_insert_failure_partial_fanout fmt0 0 0
      [⟨"192.168.1.10:38899", "Bedroom"⟩, ⟨"192.168.1.20:38899", "Kitchen"⟩]
      (fun _ => none) (fun k => if k = 1 then some "db down" else none) "db down").2
    0 (by decide) (fun j hj => by interval_cases j; rfl) (by decide)

/-! ### Claim C6 -/

@[simp] lemma fetch_wiz_lights_fst (env : String → Option String)
    (machineRows : Except String (List MachineRow)) :
    (fetch_wiz_lights env machineRows).1 = [Effect.dbQueryMachine] := rfl

lemma fetch_sunrise_time_fst_shape (env : String → Option String)
    (parseF64 : String → Option String) (parseDt : String → Except String Int)
    (httpBody : Except String String) :
    (fetch_sunrise_time env parseF64 parseDt httpBody).1 = [] ∨
      ∃ u, (fetch_sunrise_time env parseF64 parseDt httpBody).1 = [Effect.httpGet u] := by
  cases henv : env "LAT" with
  | none => simp [fetch_sunrise_time, henv]
  | some latRaw =>
    cases hpf : parseF64 latRaw with
    | none => simp [fetch_sunrise_time, henv, hpf]
    | some lat =>
      cases henv2 : env "LNG" with
      | none => simp [fetch_sunrise_time, henv, hpf, henv2]
      | some lngRaw =>
        cases hpf2 : parseF64 lngRaw with
        | none => simp [fetch_sunrise_time, henv, hpf, henv2, hpf2]
        | some lng => simp [fetch_sunrise_time, henv, hpf, henv2, hpf2]

lemma fetch_sunrise_time_err_of_bad_parse (env : String → Option String)
    (parseF64 : String → Option String) (parseDt : String → Except String Int)
    (httpBody : Except String String)
    (hparse : ∀ s, httpBody = Except.ok s → ∀ t : Int, parseDt s ≠ Except.ok t) :
    ∃ m, (fetch_sunrise_time env parseF64 parseDt httpBody).2 = Except.error m := by
  cases henv : env "LAT" with
  | none => exact ⟨"LAT not set", by simp [fetch_sunrise_time, henv]⟩
  | some latRaw =>
    cases hpf : parseF64 latRaw with
    | none => exact ⟨"Invalid latitude value", by simp [fetch_sunrise_time, henv, hpf]⟩
    | some lat =>
      cases henv2 : env "LNG" with
      | none => exact ⟨"LNG not set", by simp [fetch_sunrise_time, henv, hpf, henv2]⟩
      | some lngRaw =>
        cases hpf2 : parseF64 lngRaw with
        | none =>
          exact ⟨"Invalid longitude value", by simp [fetch_sunrise_time, henv, hpf, henv2, hpf2]⟩
        | some lng =>
          cases hb : httpBody with
          | error e =>
            exact ⟨"HTTP request error", by simp [fetch_sunrise_time, henv, hpf, henv2, hpf2, hb]⟩
          | ok s =>
            cases hd : parseDt s with
            | error e =>
              exact ⟨"DateTime parse error",
                by simp [fetch_sunrise_time, henv, hpf, henv2, hpf2, hb, hd]⟩
            | ok t => exact absurd hd (hparse s hb t)

/-- Claim C6: when the sunrise timestamp string cannot be parsed into a UTC
instant (whatever string the HTTP stage delivers), the run ends with a nonzero
exit and its trace contains no log insert and no UDP send: the abort happens
before any per-device side effect. -/
theorem malformed_sunrise_aborts_before_sends (env : String → Option String) (fmt : Fmt)
    (parseF64 : String → Option String) (parseDt : String → Except String Int)
    (connectOk : Bool) (machineRows : Except String (List MachineRow))
    (httpBody : Except String String) (now : Int)
    (sendErr : WizLight → Option String) (dbErr : Nat → Option String)
    (hparse : ∀ s, httpBody = Except.ok s → ∀ t : Int, parseDt s ≠ Except.ok t) :
    (run_program env fmt parseF64 parseDt connectOk machineRows httpBody now
        sendErr dbErr).2 ≠ ExitKind.success ∧
    (∀ e, Effect.logInsert e ∉ (run_program env fmt parseF64 parseDt connectOk machineRows
        httpBody now sendErr dbErr).1) ∧
    (∀ a p, Effect.udpSend a p ∉ (run_program env fmt parseF64 parseDt connectOk machineRows
        httpBody now sendErr dbErr).1) := by
  obtain ⟨m, hm⟩ := fetch_sunrise_time_err_of_bad_parse env parseF64 parseDt httpBody hparse
  cases hcfg : config_load env with
  | error m2 => simp [run_program, hcfg]
  | ok c =>
    cases connectOk with
    | false => simp [run_program, hcfg]
    | true =>
      cases hf : (fetch_wiz_lights env machineRows).2 with
      | error m3 => simp [run_program, hcfg, hf]
      | ok lights =>
        rcases fetch_sunrise_time_fst_shape env parseF64 parseDt httpBody with h | ⟨u, h⟩ <;>
          simp [run_program, hcfg, hf, hm, h]

/-- Instantiation of `malformed_sunrise_aborts_before_sends` with a parser
that rejects every string. -/
theorem malformed_sunrise_aborts_before_sends_witness :
    (run_program envFull fmt0 (fun s => some s) (fun _ => Except.error "input contains invalid characters")
        true (Except.ok [⟨"10", "Bedroom"⟩]) (Except.ok "not-a-timestamp") 0
        (fun _ => none) (fun _ => none)).2 ≠ ExitKind.success ∧
    (∀ e, Effect.logInsert e ∉ (run_program envFull fmt0 (fun s => some s)
        (fun _ => Except.error "input contains invalid characters") true
        (Except.ok [⟨"10", "Bedroom"⟩]) (Except.ok "not-a-timestamp") 0
        (fun _ => none) (fun _ => none)).1) ∧
    (∀ a p, Effect.udpSend a p ∉ (run_program envFull fmt0 (fun s => some s)
        (fun _ => Except.error "input contains invalid characters") true
        (Except.ok [⟨"10", "Bedroom"⟩]) (Except.ok "not-a-timestamp") 0
        (fun _ => none) (fun _ => none)).1) :=
  malformed_sunrise_aborts_before_sends envFull fmt0 (fun s => some s)
    (fun _ => Except.error "input contains invalid characters") true
    (Except.ok [⟨"10", "Bedroom"⟩]) (Except.ok "not-a-timestamp") 0
    (fun _ => none) (fun _ => none) (fun _ _ _ h => Except.noConfusion h)

/-! ### Claim C7 -/

/-- Counterexample to claim C7 as stated: with every variable set except
`NETWORK_ID`, the run does abort with the descriptive error — but only
*after* the database connection and the `machine` query have run, because
`fetch_wiz_lights` reads `NETWORK_ID` after its query; the check is not
pre-flight. -/
theorem network_id_checked_after_db_query :
    run_program (fun k => if k = "NETWORK_ID" then none else envFull k) fmt0 (fun s => some s)
        (fun _ => Except.ok 1717219800000000000) true (Except.ok [⟨"10", "Bedroom"⟩])
        (Except.ok "2024-06-01T05:30:00+00:00") 1717214400000000000
        (fun _ => none) (fun _ => none) =
      ([Effect.dbConnect, Effect.dbQueryMachine], ExitKind.failure "NETWORK_ID not set") ∧
    Effect.dbQueryMachine ∈
      (run_program (fun k => if k = "NETWORK_ID" then none else envFull k) fmt0 (fun s => some s)
        (fun _ => Except.ok 1717219800000000000) true (Except.ok [⟨"10", "Bedroom"⟩])
        (Except.ok "2024-06-01T05:30:00+00:00") 1717214400000000000
        (fun _ => none) (fun _ => none)).1 :=
  ⟨by decide, by decide⟩

lemma config_load_err_of_missing (env : String → Option String)
    (h : env "DB_HOST" = none ∨ env "DB_USER" = none ∨ env "DB_PASSWORD" = none ∨
      env "DB_NAME" = none) :
    ∃ m, config_load env = Except.error m := by
  cases h1 : env "DB_HOST" with
  | none => exact ⟨"DB_HOST not set", by simp [config_load, h1]⟩
  | some v1 =>
    cases h2 : env "DB_USER" with
    | none => exact ⟨"DB_USER not set", by simp [config_load, h1, h2]⟩
    | some v2 =>
      cases h3 : env "DB_PASSWORD" with
      | none => exact ⟨"DB_PASSWORD not set", by simp [config_load, h1, h2, h3]⟩
      | some v3 =>
        cases h4 : env "DB_NAME" with
        | none => exact ⟨"DB_NAME not set", by simp [config_load, h1, h2, h3, h4]⟩
        | some v4 => simp [h1, h2, h3, h4] at h

lemma fetch_wiz_lights_err_of_no_network_id (env : String → Option String)
    (machineRows : Except String (List MachineRow)) (h : env "NETWORK_ID" = none) :
    ∃ m, (fetch_wiz_lights env machineRows).2 = Except.error m := by
  cases machineRows with
  | error m => exact ⟨m, rfl⟩
  | ok rows => exact ⟨"NETWORK_ID not set", by simp [fetch_wiz_lights, h]⟩

lemma fetch_sunrise_time_abort_before_http (env : String → Option String)
    (parseF64 : String → Option String) (parseDt : String → Except String Int)
    (httpBody : Except String String)
    (h : env "LAT" = none ∨ (∃ s, env "LAT" = some s ∧ parseF64 s = none) ∨
      env "LNG" = none ∨ (∃ s, env "LNG" = some s ∧ parseF64 s = none)) :
    (fetch_sunrise_time env parseF64 parseDt httpBody).1 = [] ∧
    ∃ m, (fetch_sunrise_time env parseF64 parseDt httpBody).2 = Except.error m := by
  cases henv : env "LAT" with
  | none =>
    exact ⟨by simp [fetch_sunrise_time, henv], "LAT not set", by simp [fetch_sunrise_time, henv]⟩
  | some latRaw =>
    cases hpf : parseF64 latRaw with
    | none =>
      exact ⟨by simp [fetch_sunrise_time, henv, hpf], "Invalid latitude value",
        by simp [fetch_sunrise_time, henv, hpf]⟩
    | some lat =>
      cases henv2 : env "LNG" with
      | none =>
        exact ⟨by simp [fetch_sunrise_time, henv, hpf, henv2], "LNG not set",
          by simp [fetch_sunrise_time, henv, hpf, henv2]⟩
      | some lngRaw =>
        cases hpf2 : parseF64 lngRaw with
        | none =>
          exact ⟨by simp [fetch_sunrise_time, henv, hpf, henv2, hpf2], "Invalid longitude value",
            by simp [fetch_sunrise_time, henv, hpf, henv2, hpf2]⟩
        | some lng =>
          rcases h with h | ⟨s, hs, hps⟩ | h | ⟨s, hs, hps⟩
          · rw [henv] at h; exact Option.noConfusion h
          · rw [henv] at hs
            rw [Option.some_inj.mp hs] at hpf
            rw [hpf] at hps
            exact Option.noConfusion hps
          · rw [henv2] at h; exact Option.noConfusion h
          · rw [henv2] at hs
            rw [Option.some_inj.mp hs] at hpf2
            rw [hpf2] at hps
            exact Option.noConfusion hps

/-- Claim C7, corrected: absence of any of the four database variables aborts
the process pre-flight, with an empty effect trace.  Absence of `NETWORK_ID`,
or absence or parse failure of `LAT`/`LNG`, also aborts the run with a
descriptive error and happens before any HTTP request, log write, or UDP
send — but *not* pre-flight: `NETWORK_ID` is read only after the database
connection and the `machine` query, and `LAT`/`LNG` only after that (see
`network_id_checked_after_db_query`). -/
theorem env_abort_behavior (env : String → Option String) (fmt : Fmt)
    (parseF64 : String → Option String) (parseDt : String → Except String Int)
    (connectOk : Bool) (machineRows : Except String (List MachineRow))
    (httpBody : Except String String) (now : Int)
    (sendErr : WizLight → Option String) (dbErr : Nat → Option String) :
    ((env "DB_HOST" = none ∨ env "DB_USER" = none ∨ env "DB_PASSWORD" = none ∨
        env "DB_NAME" = none) →
      (run_program env fmt parseF64 parseDt connectOk machineRows httpBody now
        sendErr dbErr).1 = [] ∧
      (run_program env fmt parseF64 parseDt connectOk machineRows httpBody now
        sendErr dbErr).2 ≠ ExitKind.success) ∧
    ((env "NETWORK_ID" = none ∨ env "LAT" = none ∨
        (∃ s, env "LAT" = some s ∧ parseF64 s = none) ∨ env "LNG" = none ∨
        (∃ s, env "LNG" = some s ∧ parseF64 s = none)) →
      (run_program env fmt parseF64 parseDt connectOk machineRows httpBody now
        sendErr dbErr).2 ≠ ExitKind.success ∧
      (∀ u, Effect.httpGet u ∉ (run_program env fmt parseF64 parseDt connectOk machineRows
        httpBody now sendErr dbErr).1) ∧
      (∀ e, Effect.logInsert e ∉ (run_program env fmt parseF64 parseDt connectOk machineRows
        httpBody now sendErr dbErr).1) ∧
      (∀ a p, Effect.udpSend a p ∉ (run_program env fmt parseF64 parseDt connectOk machineRows
        httpBody now sendErr dbErr).1)) := by
  constructor
  · intro h
    obtain ⟨m, hcfg⟩ := config_load_err_of_missing env h
    simp [run_program, hcfg]
  · intro h
    rcases h with hnid | hrest
    · cases hcfg : config_load env with
      | error m2 => simp [run_program, hcfg]
      | ok c =>
        cases connectOk with
        | false => simp [run_program, hcfg]
        | true =>
          obtain ⟨m, hf⟩ := fetch_wiz_lights_err_of_no_network_id env machineRows hnid
          simp [run_program, hcfg, hf]
    · obtain ⟨h1, m, h2⟩ := fetch_sunrise_time_abort_before_http env parseF64 parseDt
        httpBody hrest
      cases hcfg : config_load env with
      | error m2 => simp [run_program, hcfg]
      | ok c =>
        cases connectOk with
        | false => simp [run_program, hcfg]
        | true =>
          cases hf : (fetch_wiz_lights env machineRows).2 with
          | error m3 => simp [run_program, hcfg, hf]
          | ok lights => simp [run_program, hcfg, hf, h1, h2]

/-- Instantiation of `env_abort_behavior`: an empty environment aborts
pre-flight with an empty trace, and an environment missing only `LAT` aborts
with no HTTP request, log write, or UDP send in the trace. -/
theorem env_abort_behavior_witness :
    ((run_program (fun _ => none) fmt0 (fun s => some s) (fun _ => Except.ok 0) true
        (Except.ok []) (Except.ok "t") 0 (fun _ => none) (fun _ => none)).1 = [] ∧
      (run_program (fun _ => none) fmt0 (fun s => some s) (fun _ => Except.ok 0) true
        (Except.ok []) (Except.ok "t") 0 (fun _ => none) (fun _ => none)).2 ≠
        ExitKind.success) ∧
    ((run_program (fun k => if k = "LAT" then none else envFull k) fmt0 (fun s => some s)
        (fun _ => Except.ok 0) true (Except.ok [⟨"10", "Bedroom"⟩]) (Except.ok "t") 0
        (fun _ => none) (fun _ => none)).2 ≠ ExitKind.success ∧
      (∀ u, Effect.httpGet u ∉ (run_program (fun k => if k = "LAT" then none else envFull k)
        fmt0 (fun s => some s) (fun _ => Except.ok 0) true (Except.ok [⟨"10", "Bedroom"⟩])
        (Except.ok "t") 0 (fun _ => none) (fun _ => none)).1) ∧
      (∀ e, Effect.logInsert e ∉ (run_program (fun k => if k = "LAT" then none else envFull k)
        fmt0 (fun s => some s) (fun _ => Except.ok 0) true (Except.ok [⟨"10", "Bedroom"⟩])
        (Except.ok "t") 0 (fun _ => none) (fun _ => none)).1) ∧
      (∀ a p, Effect.udpSend a p ∉ (run_program (fun k => if k = "LAT" then none else envFull k)
        fmt0 (fun s => some s) (fun _ => Except.ok 0) true (Except.ok [⟨"10", "Bedroom"⟩])
        (Except.ok "t") 0 (fun _ => none) (fun _ => none)).1)) :=
  ⟨(env_abort_behavior (fun _ => none) fmt0 (fun s => some s) (fun _ => Except.ok 0) true
      (Except.ok []) (Except.ok "t") 0 (fun _ => none) (fun _ => none)).1 (Or.inl rfl),
   (env_abort_behavior (fun k => if k = "LAT" then none else envFull k) fmt0 (fun s => some s)
      (fun _ => Except.ok 0) true (Except.ok [⟨"10", "Bedroom"⟩]) (Except.ok "t") 0
      (fun _ => none) (fun _ => none)).2 (Or.inr (Or.inl (by decide)))⟩

/-! ### Claim C8 -/

lemma sched_event_shape (fmt : Fmt) (sunrise now : Int) :
    (sched_event fmt sunrise now).event_type = "Morning" ∧
    (sched_event fmt sunrise now).severity = "Info" ∧
    (sched_event fmt sunrise now).machine = "All" := by
  unfold sched_event
  split <;> exact ⟨rfl, rfl, rfl⟩

lemma run_after_fetch_logInsert_shape (fmt : Fmt) (sunrise now : Int)
    (lights : List WizLight) (sendErr : WizLight → Option String)
    (dbErr : Nat → Option String) (e : LogEvent)
    (he : Effect.logInsert e ∈ (run_after_fetch fmt sunrise now lights sendErr dbErr).1) :
    e = sched_event fmt sunrise now ∨
      ∃ l, l ∈ lights ∧ (e = device_success_event l ∨ ∃ err, e = device_failure_event l err) := by
  cases hdb : dbErr 0 with
  | some m => simp [run_after_fetch, hdb] at he
  | none =>
    by_cases hd : 0 < num_seconds (duration_to_sleep sunrise now)
    · simp [run_after_fetch, hdb, hd] at he
      rcases he with he | he
      · exact Or.inl he
      · exact Or.inr (controller_loop_logInsert_shape sendErr dbErr lights 1 e he)
    · simp [run_after_fetch, hdb, hd] at he
      rcases he with he | he
      · exact Or.inl he
      · exact Or.inr (controller_loop_logInsert_shape sendErr dbErr lights 1 e he)

lemma fetch_wiz_lights_ok_shape (env : String → Option String)
    (machineRows : Except String (List MachineRow)) (lights : List WizLight)
    (h : (fetch_wiz_lights env machineRows).2 = Except.ok lights) :
    ∃ rows, machineRows = Except.ok rows ∧
      ∀ l, l ∈ lights → ∃ row, row ∈ rows ∧ l.name = row.name := by
  cases machineRows with
  | error m => simp [fetch_wiz_lights] at h
  | ok rows =>
    cases hn : env "NETWORK_ID" with
    | none => simp [fetch_wiz_lights, hn] at h
    | some nid =>
      simp [fetch_wiz_lights, hn] at h
      refine ⟨rows, rfl, ?_⟩
      intro l hl
      rw [← h] at hl
      obtain ⟨row, hrow, hmap⟩ := List.mem_map.mp hl
      exact ⟨row, hrow, by rw [← hmap]⟩

/-- Claim C8: every row the run inserts into the `log` table carries the
constant event-type tag `Morning`; its severity is `Info` or `Error`; and its
machine column is either the literal `All` (the run-wide scheduling row) or
the display name of a device row of the `machine` table. -/
theorem log_rows_shape (env : String → Option String) (fmt : Fmt)
    (parseF64 : String → Option String) (parseDt : String → Except String Int)
    (connectOk : Bool) (machineRows : Except String (List MachineRow))
    (httpBody : Except String String) (now : Int)
    (sendErr : WizLight → Option String) (dbErr : Nat → Option String) (e : LogEvent)
    (he : Effect.logInsert e ∈ (run_program env fmt parseF64 parseDt connectOk machineRows
      httpBody now sendErr dbErr).1) :
    e.event_type = "Morning" ∧
    (e.severity = "Info" ∨ e.severity = "Error") ∧
    (e.machine = "All" ∨ ∃ rows, machineRows = Except.ok rows ∧
      ∃ row, row ∈ rows ∧ e.machine = row.name) := by
  cases hcfg : config_load env with
  | error m2 => simp [run_program, hcfg] at he
  | ok c =>
    cases connectOk with
    | false => simp [run_program, hcfg] at he
    | true =>
      cases hf : (fetch_wiz_lights env machineRows).2 with
      | error m3 => simp [run_program, hcfg, hf] at he
      | ok lights =>
        cases hs : (fetch_sunrise_time env parseF64 parseDt httpBody).2 with
        | error m4 =>
          rcases fetch_sunrise_time_fst_shape env parseF64 parseDt httpBody with h | ⟨u, h⟩ <;>
            simp [run_program, hcfg, hf, hs, h] at he
        | ok sunrise =>
          have he2 : Effect.logInsert e ∈
              (run_after_fetch fmt sunrise now lights sendErr dbErr).1 := by
            rcases fetch_sunrise_time_fst_shape env parseF64 parseDt httpBody with h | ⟨u, h⟩ <;>
              simpa [run_program, hcfg, hf, hs, h] using he
          rcases run_after_fetch_logInsert_shape fmt sunrise now lights sendErr dbErr e he2
            with hsch | ⟨l, hl, hdev⟩
          · obtain ⟨k1, k2, k3⟩ := sched_event_shape fmt sunrise now
            rw [hsch]
            exact ⟨k1, Or.inl k2, Or.inl k3⟩
          · obtain ⟨rows, hrows, hname⟩ := fetch_wiz_lights_ok_shape env machineRows lights hf
            obtain ⟨row, hrow, hnm⟩ := hname l hl
            rcases hdev with hdev | ⟨err, hdev⟩ <;> rw [hdev]
            · exact ⟨rfl, Or.inl rfl, Or.inr ⟨rows, hrows, row, hrow, hnm⟩⟩
            · exact ⟨rfl, Or.inr rfl, Or.inr ⟨rows, hrows, row, hrow, hnm⟩⟩

/-- Instantiation of `log_rows_shape` at a complete successful run: the
scheduling row is a `Morning`-tagged `Info`/`All` row. -/
theorem log_rows_shape_witness :
    (sched_event fmt0 0 0).event_type = "Morning" ∧
    ((sched_event fmt0 0 0).severity = "Info" ∨ (sched_event fmt0 0 0).severity = "Error") ∧
    ((sched_event fmt0 0 0).machine = "All" ∨
      ∃ rows, (Except.ok [⟨"10", "Bedroom"⟩] : Except String (List MachineRow)) =
          Except.ok rows ∧
        ∃ row, row ∈ rows ∧ (sched_event fmt0 0 0).machine = row.name) :=
  log_rows_shape envFull fmt0 (fun s => some s) (fun _ => Except.ok 0) true
    (Except.ok [⟨"10", "Bedroom"⟩]) (Except.ok "t") 0 (fun _ => none) (fun _ => none)
    (sched_event fmt0 0 0) (by decide)
